import Mathlib

/-!
Verification development for the PRTG Grafana datasource plugin
(`src/Api.ts`, `src/datasource.ts`, `src/QueryEditorController.ts`).

The TypeScript sources are shallowly embedded: JavaScript runtime values that
matter to the claims (numbers, strings, `null`, `undefined`, `NaN`) are the
inductive `JVal`; fallible asynchronous operations become `Except String`
values; the network is an explicit environment of response outcomes.  String
operations used by the code (`split`, `trim`, `parseInt`, `parseFloat`,
`Number(...)`) are reimplemented with structural recursion over the character
list so that every definition evaluates inside the kernel.
-/

namespace PRTG

/-- Whitespace recognizer used by the JS `trim` / numeric-parsing models. -/
def isWs (c : Char) : Bool := c = ' ' ∨ c = '\t' ∨ c = '\n' ∨ c = '\r'

/-- Decimal-digit recognizer. -/
def isDigit (c : Char) : Bool := 48 ≤ c.toNat ∧ c.toNat ≤ 57

/-- Splits a character list at every occurrence of `sep`; models
`String.prototype.split` with a single-character separator
(`"".split(x) = [""]`, separators at the ends produce empty pieces). -/
def splitChars (sep : Char) : List Char → List (List Char)
  | [] => [[]]
  | c :: cs =>
    let r := splitChars sep cs
    if c = sep then [] :: r
    else
      match r with
      | [] => [[c]]
      | h :: t => (c :: h) :: t

/-- JS `s.split(sep)` for a one-character separator. -/
def jsSplit (sep : Char) (s : String) : List String :=
  (splitChars sep s.data).map String.mk

/-- JS `s.trim()` (restricted to ASCII whitespace). -/
def jsTrim (s : String) : String :=
  String.mk (((s.data.dropWhile isWs).reverse.dropWhile isWs).reverse)

/-- Numeric value of a digit character. -/
def digitVal (c : Char) : Nat := c.toNat - 48

/-- Folds a digit list into the natural number it denotes. -/
def digitsToNat (ds : List Char) : Nat :=
  ds.foldl (fun n c => n * 10 + digitVal c) 0

/-- JS `parseInt(s, 10)`: trim, optional sign, then the longest prefix of
decimal digits; `none` models `NaN` (no digits at all). -/
def parseIntJS (s : String) : Option Int :=
  let body : List Char → Option Int := fun cs =>
    let ds := cs.takeWhile isDigit
    if ds.isEmpty then none else some (digitsToNat ds : Int)
  match s.data.dropWhile isWs with
  | '-' :: rest => (body rest).map (fun n => -n)
  | '+' :: rest => body rest
  | rest => body rest

/-- Value of an unsigned decimal literal `ip[.fp]` as a rational. -/
def decValue (ip fp : List Char) : ℚ :=
  (digitsToNat ip : ℚ) + (digitsToNat fp : ℚ) / ((10 : ℚ) ^ fp.length)

/-- JS `parseFloat(s)`: trim, optional sign, longest prefix of the form
`digits[.digits]` or `.digits`; `none` models `NaN`.  (Exponent notation is
not modeled; the plugin never feeds exponent-form strings to `parseFloat`.) -/
def parseFloatJS (s : String) : Option ℚ :=
  let signed : List Char → (ℚ × List Char) := fun cs =>
    match cs with
    | '-' :: rest => (-1, rest)
    | '+' :: rest => (1, rest)
    | rest => (1, rest)
  let (sign, cs) := signed (s.data.dropWhile isWs)
  let ip := cs.takeWhile isDigit
  let rest := cs.drop ip.length
  let fp :=
    match rest with
    | '.' :: r => r.takeWhile isDigit
    | _ => []
  if ip.isEmpty ∧ fp.isEmpty then none
  else some (sign * decValue ip fp)

/-- JS `Number(s)` for a string: trim; empty means `0`; otherwise the whole
remainder must be a signed decimal literal, else `NaN` (`none`). -/
def jsStringToNumber (s : String) : Option ℚ :=
  let t := (jsTrim s).data
  if t.isEmpty then some 0
  else
    let (sign, cs) :=
      match t with
      | '-' :: rest => ((-1 : ℚ), rest)
      | '+' :: rest => ((1 : ℚ), rest)
      | rest => ((1 : ℚ), rest)
    let ip := cs.takeWhile isDigit
    let rest1 := cs.drop ip.length
    let fp :=
      match rest1 with
      | '.' :: r => r.takeWhile isDigit
      | _ => []
    let rest2 :=
      match rest1 with
      | '.' :: r => r.drop fp.length
      | other => other
    if ip.isEmpty ∧ fp.isEmpty then none
    else if rest2.isEmpty then some (sign * decValue ip fp)
    else none

/-- JavaScript runtime values as far as the embedded code inspects them:
numbers (with `NaN` split out so that `isNaN` checks are explicit), strings,
booleans, `null` and `undefined`. -/
inductive JVal where
  | jnum (q : ℚ)
  | jnan
  | jstr (s : String)
  | jbool (b : Bool)
  | jnull
  | jundefined
deriving DecidableEq, Repr

/-- JS truthiness of a `JVal`. -/
def JVal.truthy : JVal → Bool
  | .jnum q => q ≠ 0
  | .jnan => false
  | .jstr s => s ≠ ""
  | .jbool b => b
  | .jnull => false
  | .jundefined => false

/-- JS `Number(v)` coercion; `none` models `NaN`. -/
def jsToNumber : JVal → Option ℚ
  | .jnum q => some q
  | .jnan => none
  | .jstr s => jsStringToNumber s
  | .jbool b => some (if b then 1 else 0)
  | .jnull => some 0
  | .jundefined => none

/-- JS `String(v)` coercion.  Number formatting is modeled exactly for
integer-valued numbers (the only numbers the plugin stringifies). -/
def jsToString : JVal → String
  | .jnum q => if q.den = 1 then toString q.num else toString q
  | .jnan => "NaN"
  | .jstr s => s
  | .jbool b => if b then "true" else "false"
  | .jnull => "null"
  | .jundefined => "undefined"

/-- JS nullish coalescing `v ?? d`. -/
def jsNullish (v d : JVal) : JVal :=
  match v with
  | .jnull => d
  | .jundefined => d
  | v => v

/-- JS `a || b` for an optional string `a` (`undefined` and `""` are falsy). -/
def jsOrStr (o : Option String) (dflt : String) : String :=
  match o with
  | some s => if s = "" then dflt else s
  | none => dflt

/-- Truthiness of an optional string (`undefined` and `""` are falsy). -/
def optStrTruthy (o : Option String) : Bool :=
  match o with
  | some s => s ≠ ""
  | none => false

/-! ### Stable ascending sort

`sortItems` in `Api.ts` is `_.orderBy(items, [field], ['asc'])`: a stable
sort ascending by one string-valued field.  It is modeled by an insertion
sort keyed through an explicit string comparison. -/

/-- Lexicographic `≤` on character lists, comparing code points. -/
def charListLe : List Char → List Char → Bool
  | [], _ => true
  | _ :: _, [] => false
  | a :: as, b :: bs =>
    if a.toNat < b.toNat then true
    else if b.toNat < a.toNat then false
    else charListLe as bs

/-- Ascending string comparison used by the sort (code-point order, matching
the comparator `_.orderBy` applies to string values). -/
def strLe (a b : String) : Bool := charListLe a.data b.data

/-- Inserts `a` in front of the first element it compares `le` to. -/
def insertSorted (le : α → α → Bool) (a : α) : List α → List α
  | [] => [a]
  | b :: l => if le a b then a :: b :: l else b :: insertSorted le a l

/-- Stable insertion sort by the boolean comparison `le`. -/
def stableSortBy (le : α → α → Bool) : List α → List α
  | [] => []
  | a :: l => insertSorted le a (stableSortBy le l)

/-- Model of `sortItems(items, field)` from `Api.ts`: stable ascending sort
by the string key `key`. -/
def sortItems (key : α → String) (items : List α) : List α :=
  stableSortBy (fun a b => strLe (key a) (key b)) items


/-! ### JSON values and `processResponse` (`Api.ts` lines 139-173) -/

/-- JSON trees, used for the raw bodies `processResponse` inspects. -/
inductive Json where
  | str (s : String)
  | num (q : ℚ)
  | bool (b : Bool)
  | null
  | arr (elems : List Json)
  | obj (fields : List (String × Json))

/-- JS truthiness of a JSON value (arrays and objects are always truthy). -/
def Json.truthy : Json → Bool
  | .str s => s ≠ ""
  | .num q => q ≠ 0
  | .bool b => b
  | .null => false
  | .arr _ => true
  | .obj _ => true

/-- Property access `data[k]`: `none` models `undefined` (also for
non-object receivers, whose named collection properties are absent). -/
def Json.getField : Json → String → Option Json
  | .obj fields, k => (fields.find? (fun p => p.1 = k)).map (fun p => p.2)
  | _, _ => none

/-- Boolean test `data[k]` is truthy. -/
def Json.fieldTruthy (d : Json) (k : String) : Bool :=
  match d.getField k with
  | some v => v.truthy
  | none => false

/-- Fixed priority order of collection fields scanned by `processResponse`
(the key iteration order of its `responseTypes` literal). -/
def responseTypes : List String :=
  ["groups", "devices", "sensors", "channels", "values", "sensordata", "messages"]

/-- First truthy field of `d` along a key list (the `for ... in` loop of
`processResponse`, which skips falsy fields and keeps scanning). -/
def firstTruthyField (d : Json) : List String → Option Json
  | [] => none
  | t :: ts =>
    match d.getField t with
    | some v => if v.truthy then some v else firstTruthyField d ts
    | none => firstTruthyField d ts

/-- Model of `processResponse` (`Api.ts` lines 139-173).  `Except.error`
models the `throw` for the sentinel payload. -/
def processResponse (data : Json) : Except String Json :=
  if data.truthy ∧ data.fieldTruthy "Version" then .ok data
  else if data.fieldTruthy "prtg-version" then
    match data.getField "groups" with
    | some g => if g.truthy then .ok g else .ok data
    | none => .ok data
  else
    match firstTruthyField data responseTypes with
    | some v => .ok v
    | none =>
      match data with
      | .str s =>
        if s = "Not enough monitoring data" then .error "Not enough monitoring data."
        else .ok (.str s)
      | d => .ok d

/-! ### Historical-data query validation and averaging (`Api.ts` 591-652) -/

/-- One entry of the `queries` argument of `performQuerySuggestQuery`.  The
`sensorId` is kept as a raw JS value because the claims quantify over
ill-typed inputs (strings, `NaN`, `undefined`). -/
structure PRTGQueryItem where
  sensorId : JVal
  channelId : Option String
deriving DecidableEq, Repr

/-- Averaging-bucket width from the span in hours: the `_.cond` chain of
`performQuerySuggestQuery` (`Api.ts` lines 600-605). -/
def avgForHours (h : ℚ) : String :=
  if 12 < h ∧ h < 36 then "300"
  else if 36 < h ∧ h < 745 then "3600"
  else if 745 < h then "86400"
  else "0"

/-- Span in hours between the two epoch-millisecond bounds
(`Api.ts` lines 596-598: seconds difference divided by 3600). -/
def spanHours (sdate edate : ℤ) : ℚ :=
  ((edate : ℚ) / 1000 - (sdate : ℚ) / 1000) / 3600

/-- Outcome of `performQuerySuggestQuery` up to (and excluding) the network
request: either one of the two validation failures, or the request that is
issued, carrying the parameters relevant to the claims. -/
inductive HistPrep where
  | missingSensorId
  | invalidSensorId
  | request (id : ℚ) (avg : String) (channel : Option String)
deriving DecidableEq, Repr

/-- Validation and parameter-building phase of `performQuerySuggestQuery`
(`Api.ts` lines 591-639): the falsy-guard on `queries[0].sensorId`, the
averaging-bucket computation, the `Number(...)`/`isNaN` validation and the
channel-parameter guard.  `.request` means the HTTP request is issued. -/
def performQuerySuggestQueryPrep (sdate edate : ℤ) (queries : List PRTGQueryItem) :
    HistPrep :=
  match queries with
  | [] => .missingSensorId
  | q :: _ =>
    if ¬ q.sensorId.truthy then .missingSensorId
    else
      let avg := avgForHours (spanHours sdate edate)
      match jsToNumber q.sensorId with
      | none => .invalidSensorId
      | some id =>
        .request id avg
          (match q.channelId with
           | some c => if c ≠ "" ∧ c ≠ "*" then some c else none
           | none => none)

/-- Message attached to each validation failure as the caller sees it:
`missingSensorId` is thrown before the `try`, `invalidSensorId` inside it and
hence wrapped by the catch-all (`Api.ts` lines 648-651). -/
def histPrepErrorMessage : HistPrep → Option String
  | .missingSensorId => some "Invalid query: Missing sensor ID"
  | .invalidSensorId => some "Historical data query failed: Invalid sensor ID"
  | .request _ _ _ => none

/-! ### Suggest queries (`Api.ts` 301-509) and info lookups (814-888) -/

/-- Row of a PRTG table response, as the suggest/info code reads it: the
statically accessed columns plus the remaining dynamic columns. -/
structure SRow where
  objid : ℤ
  group : String
  device : String
  sensor : String
  datetime : String
  props : List (String × JVal)
deriving DecidableEq, Repr

/-- Dynamic property access `row[k]` on a table row. -/
def SRow.getProp (r : SRow) (k : String) : JVal :=
  if k = "objid" then .jnum r.objid
  else if k = "group" then .jstr r.group
  else if k = "device" then .jstr r.device
  else if k = "sensor" then .jstr r.sensor
  else if k = "datetime" then .jstr r.datetime
  else
    match r.props.find? (fun p => p.1 = k) with
    | some p => p.2
    | none => .jundefined

/-- Outcome of the `executeRequest` a suggest query performs: a transport or
server error, or a response whose relevant collection field is either absent
(`none`) or an array of rows. -/
abbrev SuggestOutcome := Except String (Option (List SRow))

/-- Model of `performGroupSuggestQuery` (`Api.ts` 301-327) as a function of
its request outcome: a missing `groups` field throws
`No group data received from PRTG`, every error is wrapped into
`Group query failed: <cause>` by the `catchError` stage, and present rows are
returned sorted ascending by `group`. -/
def performGroupSuggestQuery (r : SuggestOutcome) : Except String (List SRow) :=
  match r with
  | .error e => .error ("Group query failed: " ++ e)
  | .ok none => .error ("Group query failed: " ++ "No group data received from PRTG")
  | .ok (some rows) => .ok (sortItems (fun g => g.group) rows)

/-- Model of `performDeviceSuggestQuery` (`Api.ts` 347-380); sorted by
`device`. -/
def performDeviceSuggestQuery (r : SuggestOutcome) : Except String (List SRow) :=
  match r with
  | .error e => .error ("Device query failed: " ++ e)
  | .ok none => .error ("Device query failed: " ++ "No device data received from PRTG")
  | .ok (some rows) => .ok (sortItems (fun d => d.device) rows)

/-- Model of `performSensorSuggestQuery` (`Api.ts` 399-433); sorted by
`sensor`. -/
def performSensorSuggestQuery (r : SuggestOutcome) : Except String (List SRow) :=
  match r with
  | .error e => .error ("Sensor query failed: " ++ e)
  | .ok none => .error ("Sensor query failed: " ++ "No sensor data received from PRTG")
  | .ok (some rows) => .ok (sortItems (fun s => s.sensor) rows)

/-- Model of `performChannelSuggestQuery` (`Api.ts` 458-509): it queries
`content=sensors`, checks the `sensors` collection and sorts by the `sensor`
column, wrapping failures as `Channel query failed: <cause>`. -/
def performChannelSuggestQuery (r : SuggestOutcome) : Except String (List SRow) :=
  match r with
  | .error e => .error ("Channel query failed: " ++ e)
  | .ok none => .error ("Channel query failed: " ++ "No sensor data received from PRTG")
  | .ok (some rows) => .ok (sortItems (fun s => s.sensor) rows)

/-- Model of `getGroupInfo` (`Api.ts` 814-826): fetch the group list, linear
search for an exact name match, wrap any failure. -/
def getGroupInfo (r : SuggestOutcome) (groupName : String) : Except String SRow :=
  match performGroupSuggestQuery r with
  | .error e => .error ("Group info retrieval failed: " ++ e)
  | .ok groups =>
    match groups.find? (fun g => g.group = groupName) with
    | some g => .ok g
    | none => .error ("Group info retrieval failed: " ++ ("Group not found: " ++ groupName))

/-- Model of `getDeviceInfo` (`Api.ts` 843-855). -/
def getDeviceInfo (r : SuggestOutcome) (deviceName : String) : Except String SRow :=
  match performDeviceSuggestQuery r with
  | .error e => .error ("Device info retrieval failed: " ++ e)
  | .ok devices =>
    match devices.find? (fun d => d.device = deviceName) with
    | some d => .ok d
    | none => .error ("Device info retrieval failed: " ++ ("Device not found: " ++ deviceName))

/-- Model of `getSensorInfo` (`Api.ts` 876-888). -/
def getSensorInfo (r : SuggestOutcome) (sensorName : String) : Except String SRow :=
  match performSensorSuggestQuery r with
  | .error e => .error ("Sensor info retrieval failed: " ++ e)
  | .ok sensors =>
    match sensors.find? (fun s => s.sensor = sensorName) with
    | some s => .ok s
    | none => .error ("Sensor info retrieval failed: " ++ ("Sensor not found: " ++ sensorName))

/-! ### `getVersion` and `testAuth` (`Api.ts` 232-257 and 775-795)

Both methods wrap `return lastValueFrom(...)` in a `try`/`catch` without
awaiting the returned promise, so a rejection of that promise propagates to
the caller and the `catch` block never runs for it (an async function only
routes rejections through `catch` when the promise is awaited inside the
`try`).  `testAuth` is unaffected because its `catchError` stage already
converts every error into an emitted `false`; `getVersion`, whose
`catchError` stage rethrows a wrapped error, therefore rejects instead of
returning the `"ERROR: "`-prefixed string of its dead `catch` block. -/

/-- Model of `getVersion` as a function of the `status.json` request outcome.
On success the `'Version' in response` / `'prtg-version' in response`
membership checks pick the version field, else `"Unknown Version"`; on
failure the `catchError` stage rethrows `Version query failed: <cause>`,
which reaches the caller as a rejection (see section comment). -/
def getVersion (r : Except String Json) : Except String Json :=
  match r with
  | .error e => .error ("Version query failed: " ++ e)
  | .ok response =>
    match response.getField "Version" with
    | some v => .ok v
    | none =>
      match response.getField "prtg-version" with
      | some v => .ok v
      | none => .ok (.str "Unknown Version")

/-- Model of `testAuth` as a function of the `table.json` request outcome:
any error (including the synthetic one for a falsy response) is converted to
`false` by `catchError`; a truthy response yields `true`.  It never rejects. -/
def testAuth (r : Except String Json) : Bool :=
  match r with
  | .error _ => false
  | .ok response => if response.truthy then true else false

/-! ### Calendar dates (`datasource.ts` `parsePRTGDateTime`, lines 127-140)

`new Date(y, m, d, h, mi, s).getTime()` is modeled with the standard
days-from-civil calendar conversion (the host timezone is modeled as UTC;
no claim depends on the zone offset). -/

/-- Epoch day number of the first day of month `m` (1-12) in year `y`
(proleptic Gregorian; Hinnant's days-from-civil algorithm). -/
def epochDaysOfFirst (y m : ℤ) : ℤ :=
  let yy := if m ≤ 2 then y - 1 else y
  let era := yy.fdiv 400
  let yoe := yy - era * 400
  let mp := if m ≤ 2 then m + 9 else m - 3
  let doy := (153 * mp + 2) / 5
  let doe := yoe * 365 + yoe / 4 - yoe / 100 + doy
  era * 146097 + doe - 719468

/-- Epoch milliseconds of the JS `Date` constructor call
`new Date(year, month0, day, h, mi, s)`: years 0-99 map to 1900-1999, and
out-of-range month/day/time components roll over arithmetically. -/
def jsMakeDateMs (year month0 day h mi s : ℤ) : ℤ :=
  let year := if 0 ≤ year ∧ year ≤ 99 then year + 1900 else year
  let ymTotal := year * 12 + month0
  let ny := ymTotal.fdiv 12
  let nm := ymTotal.emod 12 + 1
  let days := epochDaysOfFirst ny nm + (day - 1)
  (((days * 24 + h) * 60 + mi) * 60 + s) * 1000

/-- JS `parseInt` applied to a possibly-undefined destructured component
(`parseInt(undefined)` is `NaN`). -/
def parseIntComp (o : Option String) : Option ℤ :=
  match o with
  | some s => parseIntJS s
  | none => none

/-- Model of `parsePRTGDateTime` (`datasource.ts` 127-140): split off an
optional time part (missing or empty defaults `00:00:00`), split the date on
`.` as day/month/year and the time on `:`, `parseInt` every component
(missing second defaults `'0'`), and build a `Date`.  A `NaN` component makes
the resulting timestamp `NaN` (`jnan`). -/
def parsePRTGDateTime (datetime : String) : JVal :=
  let parts := jsSplit ' ' datetime
  let datePart := parts.headD ""
  let timeStr :=
    match parts.get? 1 with
    | some t => if t = "" then "00:00:00" else t
    | none => "00:00:00"
  let dmy := jsSplit '.' datePart
  let hms := jsSplit ':' timeStr
  let secondStr :=
    match hms.get? 2 with
    | some s => if s = "" then "0" else s
    | none => "0"
  match parseIntComp (dmy.get? 2), parseIntComp (dmy.get? 1),
      parseIntComp (dmy.get? 0), parseIntComp (hms.get? 0),
      parseIntComp (hms.get? 1), parseIntJS secondStr with
  | some y, some mo, some d, some h, some mi, some s =>
    .jnum (jsMakeDateMs y (mo - 1) d h mi s)
  | _, _, _, _, _, _ => .jnan

/-! ### Query targets and output frames (`datasource.ts` `query`, 167-475) -/

/-- A `{name}` selector of a query target. -/
structure Sel where
  name : String
deriving DecidableEq, Repr

/-- Display options of a target (`target.options`). -/
structure TargetOptions where
  includeGroupName : Bool
  includeDeviceName : Bool
  includeSensorName : Bool
deriving DecidableEq, Repr

/-- The fields of a `PRTGQuery` target that the resolver and the
query-editor controller read or write.  Selections are optional to model
the `?.` accesses on possibly-absent selectors. -/
structure Target where
  refId : String
  queryType : String
  groupSelection : Option Sel
  deviceSelection : Option Sel
  sensorSelection : Option Sel
  channelSelection : Option Sel
  valueSelection : Option Sel
  propertySelection : Option Sel
  filterPropertySelection : Option Sel
  options : Option TargetOptions
deriving DecidableEq, Repr

/-- Field types of an output data frame. -/
inductive FieldType where
  | time
  | number
  | strType
deriving DecidableEq, Repr

/-- One field of an output frame (name, type, values, optional display
name from `config.displayName`). -/
structure Field where
  name : String
  ftype : FieldType
  values : List JVal
  displayName : Option String
deriving DecidableEq, Repr

/-- One output data frame. -/
structure Frame where
  refId : String
  name : String
  fields : List Field
deriving DecidableEq, Repr

/-- Loading state of the overall query response. -/
inductive LoadingState where
  | done
  | error
deriving DecidableEq, Repr

/-- The `{data, state}` object returned by `query`. -/
structure QueryResponse where
  data : List Frame
  state : LoadingState
deriving DecidableEq, Repr

/-- Network environment of one `query` call: the outcome each upstream
request would have.  `hist` maps the parameters of a historical-data request
(sensor id, averaging string, optional channel) to the `histdata` field of
the response (`none` when the field is missing). -/
structure Env where
  groupSuggest : SuggestOutcome
  deviceSuggest : SuggestOutcome
  sensorSuggest : SuggestOutcome
  hist : ℚ → String → Option String → Except String (Option (List (List (String × JVal))))

/-- A history data point: a JS object given as its key/value list in key
insertion order. -/
abbrev HistRow := List (String × JVal)

/-- Property access on a history row (`undefined` when absent). -/
def histGet (r : HistRow) (k : String) : JVal :=
  match r.find? (fun p => p.1 = k) with
  | some p => p.2
  | none => .jundefined

/-- Full model of `performQuerySuggestQuery` (`Api.ts` 591-652) given the
network environment: validation via `performQuerySuggestQueryPrep`, then the
request, then the empty-`histdata` check, with the catch-all wrapping every
in-`try` failure as `Historical data query failed: <cause>`.  A nonempty
`histdata` array is returned as head and tail so emptiness is structural. -/
def performQuerySuggestQueryFull (env : Env) (sdate edate : ℤ)
    (queries : List PRTGQueryItem) : Except String (HistRow × List HistRow) :=
  match performQuerySuggestQueryPrep sdate edate queries with
  | .missingSensorId => .error "Invalid query: Missing sensor ID"
  | .invalidSensorId => .error ("Historical data query failed: " ++ "Invalid sensor ID")
  | .request id avg channel =>
    match env.hist id avg channel with
    | .error e => .error ("Historical data query failed: " ++ e)
    | .ok none =>
      .error ("Historical data query failed: " ++ "No historical data received from PRTG")
    | .ok (some []) =>
      .error ("Historical data query failed: " ++ "No historical data received from PRTG")
    | .ok (some (first :: rest)) => .ok (first, rest)

/-- Suffix test `s.endsWith(pat)`. -/
def strEndsWith (s pat : String) : Bool :=
  pat.data.reverse.isPrefixOf s.data.reverse

/-- JS `Array.prototype.join(sep)`. -/
def joinSep (sep : String) : List String → String
  | [] => ""
  | [x] => x
  | x :: xs => x ++ sep ++ joinSep sep xs

/-- Selector name of an optional selection (`sel?.name`). -/
def selName (o : Option Sel) : Option String := o.map Sel.name

/-- Model of the `text` branch of `query` (`datasource.ts` 174-256).  There
is no `try`/`catch` inside this branch, so an info-fetch failure rejects the
per-target promise (`Except.error`); an unknown property type resolves
`null` (`.ok none`). -/
def processTextTarget (env : Env) (t : Target) : Except String (Option Frame) :=
  let filterProperty := jsOrStr (selName t.filterPropertySelection) "status"
  match selName t.propertySelection with
  | some "group" =>
    match getGroupInfo env.groupSuggest (jsOrStr (selName t.groupSelection) "*") with
    | .error e => .error e
    | .ok r =>
      .ok (some
        { refId := t.refId
          name := "PRTG " ++ "group" ++ " " ++ filterProperty
          fields :=
            [ { name := "Time", ftype := .time,
                values := [parsePRTGDateTime r.datetime], displayName := none },
              { name := filterProperty, ftype := .strType,
                values := [jsNullish (r.getProp filterProperty) (.jstr "")],
                displayName := some (r.group ++ " - " ++ filterProperty) } ] })
  | some "device" =>
    match getDeviceInfo env.deviceSuggest (jsOrStr (selName t.deviceSelection) "*") with
    | .error e => .error e
    | .ok r =>
      .ok (some
        { refId := t.refId
          name := "PRTG " ++ "device" ++ " " ++ filterProperty
          fields :=
            [ { name := "Time", ftype := .time,
                values := [parsePRTGDateTime r.datetime], displayName := none },
              { name := filterProperty, ftype := .strType,
                values := [jsNullish (r.getProp filterProperty) (.jstr "")],
                displayName :=
                  some (r.group ++ " - " ++ r.device ++ " - " ++ filterProperty) } ] })
  | some "sensor" =>
    match getSensorInfo env.sensorSuggest (jsOrStr (selName t.sensorSelection) "*") with
    | .error e => .error e
    | .ok r =>
      .ok (some
        { refId := t.refId
          name := "PRTG " ++ "sensor" ++ " " ++ filterProperty
          fields :=
            [ { name := "Time", ftype := .time,
                values := [parsePRTGDateTime r.datetime], displayName := none },
              { name := filterProperty, ftype := .strType,
                values := [jsNullish (r.getProp filterProperty) (.jstr "")],
                displayName :=
                  some (r.group ++ " - " ++ r.device ++ " - " ++ r.sensor ++ " -"
                    ++ filterProperty) } ] })
  | _ => .ok none

/-- Model of the `raw` branch of `query` (`datasource.ts` 258-341); like the
`text` branch but defaulting the filter property to `status_raw`, reading
the `<filterProperty>_raw` column, and typing the value field `number`
exactly when the filter property name ends in `_raw`.  Also uncaught. -/
def processRawTarget (env : Env) (t : Target) : Except String (Option Frame) :=
  let filterProperty := jsOrStr (selName t.filterPropertySelection) "status_raw"
  let vtype := if strEndsWith filterProperty "_raw" then FieldType.number else FieldType.strType
  match selName t.propertySelection with
  | some "group" =>
    match getGroupInfo env.groupSuggest (jsOrStr (selName t.groupSelection) "*") with
    | .error e => .error e
    | .ok r =>
      .ok (some
        { refId := t.refId
          name := "PRTG " ++ "group" ++ " " ++ filterProperty
          fields :=
            [ { name := "Time", ftype := .time,
                values := [parsePRTGDateTime r.datetime], displayName := none },
              { name := filterProperty, ftype := vtype,
                values := [jsNullish (r.getProp (filterProperty ++ "_raw")) (.jstr "")],
                displayName := some (r.group ++ " - " ++ filterProperty) } ] })
  | some "device" =>
    match getDeviceInfo env.deviceSuggest (jsOrStr (selName t.deviceSelection) "*") with
    | .error e => .error e
    | .ok r =>
      .ok (some
        { refId := t.refId
          name := "PRTG " ++ "device" ++ " " ++ filterProperty
          fields :=
            [ { name := "Time", ftype := .time,
                values := [parsePRTGDateTime r.datetime], displayName := none },
              { name := filterProperty, ftype := vtype,
                values := [jsNullish (r.getProp (filterProperty ++ "_raw")) (.jstr "")],
                displayName :=
                  some (r.group ++ " - " ++ r.device ++ " - " ++ filterProperty) } ] })
  | some "sensor" =>
    match getSensorInfo env.sensorSuggest (jsOrStr (selName t.sensorSelection) "*") with
    | .error e => .error e
    | .ok r =>
      .ok (some
        { refId := t.refId
          name := "PRTG " ++ "sensor" ++ " " ++ filterProperty
          fields :=
            [ { name := "Time", ftype := .time,
                values := [parsePRTGDateTime r.datetime], displayName := none },
              { name := filterProperty, ftype := vtype,
                values := [jsNullish (r.getProp (filterProperty ++ "_raw")) (.jstr "")],
                displayName :=
                  some (r.group ++ " - " ++ r.device ++ "- " ++ r.sensor ++ "- "
                    ++ filterProperty) } ] })
  | _ => .ok none

/-- Non-`datetime` keys of the first history point
(`datasource.ts` line 380). -/
def metricsAvailable (firstPoint : HistRow) : List String :=
  (firstPoint.map Prod.fst).filter (fun k => k ≠ "datetime")

/-- Selected metric columns (`datasource.ts` 382-389): the comma-split,
trimmed entries of the value selection that occur among the available
metrics; all available metrics when none matches. -/
def metricsSelectedValues (valueSel : String) (available : List String) : List String :=
  let sel := ((jsSplit ',' valueSel).map jsTrim).filter (fun v => available.contains v)
  if sel.isEmpty then available else sel

/-- Numeric conversion of one history cell (`datasource.ts` 404-407):
numbers pass through, everything else goes through `parseFloat` of its
string form; `NaN` becomes `null` (`none`), later filtered out. -/
def metricValueOf (item : HistRow) (metric : String) : Option ℚ :=
  match histGet item metric with
  | .jnum q => some q
  | .jnan => none
  | v => parseFloatJS (jsToString v)

/-- Values of one metric field with the `null`s filtered out
(`datasource.ts` 402-409). -/
def metricFieldValues (histData : List HistRow) (metric : String) : List JVal :=
  (histData.filterMap (fun item => metricValueOf item metric)).map JVal.jnum

/-- Display label of a metric field (`datasource.ts` 411-423): optional
group/device/sensor prefixes, then the metric name, joined by `" - "`. -/
def metricDisplayName (t : Target) (metric : String) : String :=
  let flag : (TargetOptions → Bool) → Bool := fun f =>
    match t.options with
    | some o => f o
    | none => false
  let push : Bool → Option String → List String := fun b o =>
    if b ∧ optStrTruthy o then [(o.getD "")] else []
  joinSep " - "
    (push (flag TargetOptions.includeGroupName) (selName t.groupSelection)
      ++ push (flag TargetOptions.includeDeviceName) (selName t.deviceSelection)
      ++ push (flag TargetOptions.includeSensorName) (selName t.sensorSelection)
      ++ [metric])

/-- Frame name of a metrics frame (`datasource.ts` 440-443): the compacted
group/device/sensor names joined by `" - "`, or `PRTG Data`. -/
def frameNameOf (t : Target) : String :=
  let parts := ([selName t.groupSelection, selName t.deviceSelection,
    selName t.sensorSelection].filterMap id).filter (fun s => s ≠ "")
  let j := joinSep " - " parts
  if j = "" then "PRTG Data" else j

/-- Model of the metrics branch of `query` (`datasource.ts` 343-458), which
runs for every query type other than `text` and `raw`.  Both nested
`try`/`catch` blocks resolve `null` on failure, so this branch never rejects:
it returns `none` (target skipped) or a frame. -/
def processMetricsTarget (env : Env) (fromTime toTime : ℤ) (t : Target) : Option Frame :=
  if ¬ optStrTruthy (selName t.valueSelection) then none
  else if ¬ optStrTruthy (selName t.sensorSelection) then none
  else
    let sensorName := (selName t.sensorSelection).getD ""
    match getSensorInfo env.sensorSuggest sensorName with
    | .error _ => none
    | .ok info =>
      if info.objid = 0 then none
      else
        let queryItems : List PRTGQueryItem :=
          [⟨.jnum info.objid, selName t.channelSelection⟩]
        match performQuerySuggestQueryFull env fromTime toTime queryItems with
        | .error _ => none
        | .ok (firstPoint, restPoints) =>
          let histData := firstPoint :: restPoints
          let availableMetrics := metricsAvailable firstPoint
          let selectedValues :=
            metricsSelectedValues ((selName t.valueSelection).getD "") availableMetrics
          let times := histData.map
            (fun item => parsePRTGDateTime (jsToString (histGet item "datetime")))
          let fields :=
            { name := "Time", ftype := FieldType.time, values := times,
              displayName := none } ::
              selectedValues.map (fun metric =>
                { name := metric, ftype := FieldType.number,
                  values := metricFieldValues histData metric,
                  displayName := some (metricDisplayName t metric) })
          some { refId := t.refId, name := frameNameOf t, fields := fields }

/-- Resolution of one query target (`datasource.ts` 173-459): the `text`
and `raw` branches may reject; every other query type takes the metrics
path, which always resolves. -/
def processTarget (env : Env) (fromTime toTime : ℤ) (t : Target) :
    Except String (Option Frame) :=
  if t.queryType = "text" then processTextTarget env t
  else if t.queryType = "raw" then processRawTarget env t
  else .ok (processMetricsTarget env fromTime toTime t)

/-- True when a per-target promise rejected. -/
def outcomeIsRejected : Except String (Option Frame) → Bool
  | .error _ => true
  | .ok _ => false

/-- The non-`null` frames of a list of resolved outcomes
(`results.filter(result => result !== null)`, `datasource.ts` 462). -/
def collectFrames (outcomes : List (Except String (Option Frame))) : List Frame :=
  outcomes.filterMap (fun o => match o with | .ok f => f | .error _ => none)

/-- Model of `query` (`datasource.ts` 167-475): all targets are resolved
with `Promise.all`; if any per-target promise rejects the whole `Promise.all`
rejects and the outer catch returns `{data: [], state: Error}`, discarding
sibling results; otherwise the non-`null` frames are kept and the state is
`Done` exactly when at least one frame remains. -/
def dsQuery (env : Env) (fromTime toTime : ℤ) (targets : List Target) :
    QueryResponse :=
  let outcomes := targets.map (processTarget env fromTime toTime)
  if outcomes.any outcomeIsRejected then
    { data := [], state := .error }
  else
    let valid := collectFrames outcomes
    { data := valid, state := if valid.length > 0 then .done else .error }

/-! ### Query-editor controller (`QueryEditorController.ts`) -/

/-- One entry of a selection candidate list. -/
structure MetricEntry where
  name : String
  visible_name : Option String
  templated : Bool
deriving DecidableEq, Repr

/-- The candidate lists held in `this.metric`. -/
structure MetricLists where
  groupList : List MetricEntry
  deviceList : List MetricEntry
  sensorList : List MetricEntry
  channelList : List MetricEntry
  valueList : List MetricEntry
  propertyList : List MetricEntry
  filterPropertyList : List MetricEntry
deriving DecidableEq, Repr

/-- Controller state: the owned target, the candidate lists, the last
notified target snapshot (`oldTarget`, absent before the first comparison)
and whether `panelCtrl.refresh()` has fired. -/
structure CtrlState where
  target : Target
  metric : MetricLists
  oldTarget : Option Target
  notified : Bool
deriving Repr

/-- Model of `isEqual` (`QueryEditorController.ts` 466-471):
`JSON.stringify` equality, false when either side is absent. -/
def isEqualTargets (oldTarget : Option Target) (newTarget : Target) : Bool :=
  match oldTarget with
  | none => false
  | some t => t = newTarget

/-- Model of `targetChange` (`QueryEditorController.ts` 242-250): when the
target differs from the last snapshot, store a new snapshot and refresh the
panel.  It never mutates `target` or the candidate lists. -/
def targetChange (s : CtrlState) : CtrlState :=
  if isEqualTargets s.oldTarget s.target then s
  else { s with oldTarget := some s.target, notified := true }

/-- Model of `clearSelection` (`QueryEditorController.ts` 771-809).  The
`switch` cases mirror the source, including the missing `break` that makes
the `channel` case fall through into the `value` case; each case ends in
`targetChange()`. -/
def clearSelection (selectionType : String) (s : CtrlState) : CtrlState :=
  let s1 :=
    if selectionType = "group" then
      { s with
        target := { s.target with groupSelection := some ⟨""⟩ }
        metric := { s.metric with
          deviceList := []
          sensorList := []
          channelList := []
          valueList := []
          propertyList := []
          filterPropertyList := [] } }
    else if selectionType = "device" then
      { s with
        target := { s.target with deviceSelection := some ⟨""⟩ }
        metric := { s.metric with
          sensorList := []
          channelList := []
          valueList := []
          propertyList := []
          filterPropertyList := [] } }
    else if selectionType = "sensor" then
      { s with
        target := { s.target with sensorSelection := some ⟨""⟩ }
        metric := { s.metric with
          channelList := []
          valueList := []
          propertyList := []
          filterPropertyList := [] } }
    else if selectionType = "channel" then
      let sChan :=
        { s with
          target := { s.target with channelSelection := some ⟨""⟩ }
          metric := { s.metric with valueList := [] } }
      { sChan with target := { sChan.target with valueSelection := some ⟨""⟩ } }
    else if selectionType = "value" then
      { s with target := { s.target with valueSelection := some ⟨""⟩ } }
    else if selectionType = "property" then
      { s with
        target := { s.target with propertySelection := some ⟨""⟩ }
        metric := { s.metric with filterPropertyList := [] } }
    else s
  targetChange s1

/-- Blank test of one selection as `validateTarget` performs it:
`!selection?.name?.trim()`. -/
def selBlank (o : Option Sel) : Bool :=
  match o with
  | none => true
  | some sel => jsTrim sel.name = ""

/-- Model of `validateTarget` (`QueryEditorController.ts` 358-398): one
error message per blank required selection, in source order.  (The final
`filterPropertySelection` check only clears a cached `validationErrors`
field and contributes no message.) -/
def validateTarget (t : Target) : List String :=
  (if selBlank t.groupSelection then ["Group selection is required"] else [])
    ++ (if selBlank t.deviceSelection then ["Device selection is required"] else [])
    ++ (if selBlank t.sensorSelection then ["Sensor selection is required"] else [])
    ++ (if selBlank t.channelSelection then ["Channel selection is required"] else [])
    ++ (if selBlank t.valueSelection then ["Value selection is required"] else [])
    ++ (if selBlank t.propertySelection then ["Property selection is required"] else [])

/-- Validation status record of `getValidationStatus`
(`QueryEditorController.ts` 846-852). -/
structure ValidationStatus where
  isValid : Bool
  errors : List String
deriving DecidableEq, Repr

/-- Model of `getValidationStatus`: valid iff the error list is empty. -/
def getValidationStatus (t : Target) : ValidationStatus :=
  { isValid := (validateTarget t).isEmpty, errors := validateTarget t }

/-- The 26 reference-id letters of the controller. -/
def targetLetters : List String :=
  ["A","B","C","D","E","F","G","H","I","J","K","L","M",
   "N","O","P","Q","R","S","T","U","V","W","X","Y","Z"]

/-- Model of `getNextRefId` (`QueryEditorController.ts` 945-950):
`indexOf` of the current ref id (JS `-1` when absent, clamped to `0`), then
the letter at that index (always found, so the `|| 'A'` fallback only fires
through the clamp). -/
def getNextRefId (currentRefId : String) : String :=
  let idx : ℤ :=
    match targetLetters.findIdx? (fun l => l = currentRefId) with
    | some i => (i : ℤ)
    | none => -1
  let index := max 0 idx
  jsOrStr (targetLetters.get? index.toNat) "A"

/-- Model of `resetTarget` (`QueryEditorController.ts` 870-910): replace the
target with the default one (every selection present with an empty name,
query type `metrics`, display flags off), then `targetChange()`. -/
def resetTarget (s : CtrlState) : CtrlState :=
  targetChange
    { s with
      target :=
        { refId := getNextRefId (jsOrStr (some s.target.refId) "A")
          queryType := "metrics"
          groupSelection := some ⟨""⟩
          deviceSelection := some ⟨""⟩
          sensorSelection := some ⟨""⟩
          channelSelection := some ⟨""⟩
          valueSelection := some ⟨""⟩
          propertySelection := some ⟨""⟩
          filterPropertySelection := some ⟨""⟩
          options := some
            { includeGroupName := false
              includeDeviceName := false
              includeSensorName := false } } }

/-! ### Observers and concrete fixtures used by the theorems -/

/-- Field names of the frame a target resolution produced, if any. -/
def frameFieldNames : Except String (Option Frame) → Option (List String)
  | .ok (some f) => some (f.fields.map Field.name)
  | _ => none

/-- Field types of the frame a target resolution produced, if any. -/
def frameFieldTypes : Except String (Option Frame) → Option (List FieldType)
  | .ok (some f) => some (f.fields.map Field.ftype)
  | _ => none

/-- True when a target resolution resolved (possibly to `null`) rather than
rejecting. -/
def outcomeResolved : Except String (Option Frame) → Bool
  | .ok _ => true
  | .error _ => false

/-- True when a target resolution produced a frame. -/
def outcomeProducedFrame : Except String (Option Frame) → Bool
  | .ok (some _) => true
  | .ok none => false
  | .error _ => false

/-- A sensor table row used by the concrete scenarios. -/
def exSensorRow : SRow :=
  { objid := 123, group := "G", device := "D", sensor := "S",
    datetime := "01.01.2021 00:00:00", props := [] }

/-- The single history point used by the concrete scenarios. -/
def exHistRow : HistRow :=
  [("datetime", .jstr "01.01.2021 00:10:00"), ("Value", .jnum 42)]

/-- Environment in which every upstream request succeeds. -/
def exEnvOk : Env :=
  { groupSuggest := .ok (some [exSensorRow])
    deviceSuggest := .ok (some [exSensorRow])
    sensorSuggest := .ok (some [exSensorRow])
    hist := fun _ _ _ => .ok (some [exHistRow]) }

/-- Environment in which the group table request fails with a transport
error while everything else succeeds. -/
def exEnvGroupDown : Env :=
  { groupSuggest := .error "Network Error"
    deviceSuggest := .ok (some [exSensorRow])
    sensorSuggest := .ok (some [exSensorRow])
    hist := fun _ _ _ => .ok (some [exHistRow]) }

/-- A metrics target whose value selection is the empty string. -/
def exTargetEmptyVal : Target :=
  { refId := "A", queryType := "metrics"
    groupSelection := some ⟨"G"⟩, deviceSelection := some ⟨"D"⟩
    sensorSelection := some ⟨"S"⟩, channelSelection := some ⟨"*"⟩
    valueSelection := some ⟨""⟩
    propertySelection := some ⟨""⟩, filterPropertySelection := some ⟨""⟩
    options := none }

/-- The same metrics target with the `Value` column selected. -/
def exTargetWithVal : Target :=
  { exTargetEmptyVal with refId := "B", valueSelection := some ⟨"Value"⟩ }

/-- A `text`-mode target reading a group property. -/
def exTextTarget : Target :=
  { refId := "C", queryType := "text"
    groupSelection := some ⟨"G"⟩, deviceSelection := some ⟨"D"⟩
    sensorSelection := some ⟨"S"⟩, channelSelection := some ⟨"*"⟩
    valueSelection := some ⟨"Value"⟩
    propertySelection := some ⟨"group"⟩, filterPropertySelection := some ⟨"status"⟩
    options := none }

/-! ## Theorems -/

theorem charListLe_refl (l : List Char) : charListLe l l = true := by
  induction l with
  | nil => rfl
  | cons a as ih => simp [charListLe, ih]

theorem charListLe_total (l m : List Char) :
    charListLe l m = true ∨ charListLe m l = true := by
  induction l generalizing m with
  | nil => left; rfl
  | cons a as ih =>
    cases m with
    | nil => right; rfl
    | cons b bs =>
      by_cases hab : a.toNat < b.toNat
      · left; simp [charListLe, hab]
      · by_cases hba : b.toNat < a.toNat
        · right; simp [charListLe, hba]
        · rcases ih bs with h | h
          · left; simp [charListLe, hab, hba, h]
          · right; simp [charListLe, hab, hba, h]

theorem charListLe_trans {l m n : List Char}
    (h₁ : charListLe l m = true) (h₂ : charListLe m n = true) :
    charListLe l n = true := by
  induction l generalizing m n with
  | nil => rfl
  | cons a as ih =>
    cases m with
    | nil => simp [charListLe] at h₁
    | cons b bs =>
      cases n with
      | nil => simp [charListLe] at h₂
      | cons c cs =>
        simp only [charListLe] at h₁ h₂ ⊢
        by_cases hab : a.toNat < b.toNat
        · by_cases hbc : b.toNat < c.toNat
          · have hac : a.toNat < c.toNat := Nat.lt_trans hab hbc
            simp [hac]
          · by_cases hcb : c.toNat < b.toNat
            · simp [hbc, hcb] at h₂
            · have hac : a.toNat < c.toNat := by omega
              simp [hac]
        · by_cases hba : b.toNat < a.toNat
          · simp [hab, hba] at h₁
          · by_cases hbc : b.toNat < c.toNat
            · have hac : a.toNat < c.toNat := by omega
              simp [hac]
            · by_cases hcb : c.toNat < b.toNat
              · simp [hbc, hcb] at h₂
              · have hac : ¬ a.toNat < c.toNat := by omega
                have hca : ¬ c.toNat < a.toNat := by omega
                simp [hab, hba] at h₁
                simp [hbc, hcb] at h₂
                simp only [hac, if_false, hca, if_neg]
                exact ih h₁ h₂

theorem strLe_refl (s : String) : strLe s s = true := charListLe_refl _

theorem strLe_total (a b : String) : strLe a b = true ∨ strLe b a = true :=
  charListLe_total _ _

theorem strLe_trans {a b c : String} (h₁ : strLe a b = true)
    (h₂ : strLe b c = true) : strLe a c = true := charListLe_trans h₁ h₂

theorem targetChange_target (s : CtrlState) : (targetChange s).target = s.target := by
  unfold targetChange; split <;> rfl

theorem targetChange_metric (s : CtrlState) : (targetChange s).metric = s.metric := by
  unfold targetChange; split <;> rfl

theorem insertSorted_perm (le : α → α → Bool) (a : α) (l : List α) :
    (insertSorted le a l).Perm (a :: l) := by
  induction l with
  | nil => simp [insertSorted]
  | cons b bs ih =>
    by_cases h : le a b
    · simp [insertSorted, h]
    · simp only [insertSorted, h, if_neg, Bool.false_eq_true, not_false_iff, ite_false]
      exact (ih.cons b).trans (List.Perm.swap a b bs)

theorem stableSortBy_perm (le : α → α → Bool) (l : List α) :
    (stableSortBy le l).Perm l := by
  induction l with
  | nil => simp [stableSortBy]
  | cons a as ih =>
    exact (insertSorted_perm le a (stableSortBy le as)).trans (ih.cons a)

theorem insertSorted_pairwise (le : α → α → Bool)
    (hTotal : ∀ x y, le x y = true ∨ le y x = true)
    (hTrans : ∀ {x y z}, le x y = true → le y z = true → le x z = true)
    (a : α) (l : List α) (hl : l.Pairwise (fun x y => le x y = true)) :
    (insertSorted le a l).Pairwise (fun x y => le x y = true) := by
  induction l with
  | nil => simp [insertSorted]
  | cons b bs ih =>
    rcases List.pairwise_cons.mp hl with ⟨hb, hbs⟩
    by_cases h : le a b
    · simp only [insertSorted, h, if_true]
      refine List.pairwise_cons.mpr ⟨?_, hl⟩
      intro x hx
      rcases List.mem_cons.mp hx with hx | hx
      · exact hx ▸ h
      · exact hTrans h (hb x hx)
    · have hba : le b a = true := by
        rcases hTotal a b with h1 | h1
        · exact absurd h1 h
        · exact h1
      simp only [insertSorted, h, if_false, Bool.false_eq_true, if_neg]
      refine List.pairwise_cons.mpr ⟨?_, ih hbs⟩
      intro x hx
      have hx2 := (insertSorted_perm le a bs).mem_iff.mp hx
      rcases List.mem_cons.mp hx2 with hx3 | hx3
      · exact hx3 ▸ hba
      · exact hb x hx3

theorem stableSortBy_pairwise (le : α → α → Bool)
    (hTotal : ∀ x y, le x y = true ∨ le y x = true)
    (hTrans : ∀ {x y z}, le x y = true → le y z = true → le x z = true)
    (l : List α) :
    (stableSortBy le l).Pairwise (fun x y => le x y = true) := by
  induction l with
  | nil => simp [stableSortBy]
  | cons a as ih =>
    exact insertSorted_pairwise le hTotal hTrans a _ ih

theorem filter_insertSorted (le : α → α → Bool) (p : α → Bool)
    (hp : ∀ x y, p x = true → p y = true → le x y = true)
    (a : α) (l : List α) :
    (insertSorted le a l).filter p =
      if p a then a :: l.filter p else l.filter p := by
  induction l with
  | nil => by_cases h : p a <;> simp [insertSorted, List.filter, h]
  | cons b bs ih =>
    by_cases hab : le a b
    · by_cases ha : p a <;> simp [insertSorted, hab, List.filter, ha]
    · have key : ¬ (p a = true ∧ p b = true) := by
        rintro ⟨h1, h2⟩
        exact hab (hp a b h1 h2)
      by_cases ha : p a
      · have hb : p b = false := by
          cases hpb : p b
          · rfl
          · exact absurd ⟨ha, hpb⟩ key
        simp [insertSorted, hab, List.filter, hb, ih, ha]
      · have ha2 : p a = false := by cases hpa : p a; rfl; exact absurd hpa ha
        by_cases hb : p b <;> simp [insertSorted, hab, List.filter, hb, ih, ha2]

theorem stableSortBy_filter_eq (le : α → α → Bool) (p : α → Bool)
    (hp : ∀ x y, p x = true → p y = true → le x y = true) (l : List α) :
    (stableSortBy le l).filter p = l.filter p := by
  induction l with
  | nil => rfl
  | cons a as ih =>
    rw [stableSortBy, filter_insertSorted le p hp, ih]
    by_cases ha : p a <;> simp [List.filter, ha]

/-- Stability of `sortItems`: the subsequence of items carrying any fixed key
is untouched, so equal-key items keep their relative order. -/
theorem sortItems_stable (key : α → String) (items : List α) (k : String) :
    (sortItems key items).filter (fun a => key a = k) =
      items.filter (fun a => key a = k) := by
  refine stableSortBy_filter_eq _ _ ?_ items
  intro x y hx hy
  have hxk : key x = k := by simpa using hx
  have hyk : key y = k := by simpa using hy
  rw [hxk, hyk]
  exact strLe_refl k

/-- `sortItems` returns a permutation of its input. -/
theorem sortItems_perm (key : α → String) (items : List α) :
    (sortItems key items).Perm items := stableSortBy_perm _ _

/-- `sortItems` output is sorted ascending by the key. -/
theorem sortItems_sorted (key : α → String) (items : List α) :
    (sortItems key items).Pairwise (fun a b => strLe (key a) (key b) = true) := by
  refine stableSortBy_pairwise _ ?_ ?_ items
  · intro x y; exact strLe_total _ _
  · intro x y z h₁ h₂; exact strLe_trans h₁ h₂

/-- C1: the claim that `performQuerySuggestQuery` with
`queryItems[0].sensorId = -1` fails with an "Invalid sensor ID" condition
before any network request is false on the code: `-1` is truthy and
`Number(-1)` is not `NaN`, so validation passes and the request is issued
with `id = -1` (first two conjuncts).  Only a truthy sensor id whose numeric
conversion is `NaN` fails that way (third and fourth conjuncts), and a falsy
sensor id such as `0` fails with the distinct missing-id message instead
(fifth conjunct). -/
theorem claim_C1_invalid_sensor_id :
    performQuerySuggestQueryPrep 0 0 [⟨.jnum (-1), some "456"⟩]
        = .request (-1) "0" (some "456") ∧
    histPrepErrorMessage (performQuerySuggestQueryPrep 0 0 [⟨.jnum (-1), some "456"⟩])
        = none ∧
    performQuerySuggestQueryPrep 0 0 [⟨.jstr "abc", none⟩] = .invalidSensorId ∧
    histPrepErrorMessage (performQuerySuggestQueryPrep 0 0 [⟨.jstr "abc", none⟩])
        = some ("Historical data query failed: " ++ "Invalid sensor ID") ∧
    performQuerySuggestQueryPrep 0 0 [⟨.jnum 0, none⟩] = .missingSensorId := by
  have havg : avgForHours (spanHours 0 0) = "0" := by
    unfold avgForHours spanHours
    norm_num
  refine ⟨?_, ?_, ?_, ?_, ?_⟩
  · rw [← havg]; rfl
  · rfl
  · rfl
  · rfl
  · rfl

/-- C6: `testAuth` never propagates a failure — it is `false` on every error
outcome and mirrors the truthiness of any received response body — but
`getVersion` does propagate: a request failure surfaces as a rejection with
message `Version query failed: <cause>`, not as the documented
`"ERROR: "`-prefixed return string, because the promise is returned from the
`try` block without `await` (the success paths behave as specified). -/
theorem claim_C6_getVersion_testAuth :
    (∀ e, testAuth (.error e) = false) ∧
    (∀ j, testAuth (.ok j) = j.truthy) ∧
    getVersion (.error "Network error")
        = .error ("Version query failed: " ++ "Network error") ∧
    (∀ e, getVersion (.error e) = .error ("Version query failed: " ++ e)) ∧
    getVersion (.ok (Json.obj [("Version", .str "22.1.76.1869")]))
        = .ok (.str "22.1.76.1869") ∧
    getVersion (.ok (Json.obj [("prtg-version", .str "1.2.3")])) = .ok (.str "1.2.3") ∧
    getVersion (.ok (Json.obj [])) = .ok (.str "Unknown Version") := by
  refine ⟨fun e => rfl, fun j => ?_, rfl, fun e => rfl, rfl, rfl, rfl⟩
  cases h : j.truthy <;> simp [testAuth, h]

/-- C8: clearing the group selection sets `groupSelection` to the empty
name, empties the device, sensor, channel, value, property and
filter-property candidate lists, and leaves the device, sensor, channel and
value target selectors unchanged. -/
theorem claim_C8_clear_group (s : CtrlState) :
    (clearSelection "group" s).target.groupSelection = some ⟨""⟩ ∧
    (clearSelection "group" s).metric.deviceList = [] ∧
    (clearSelection "group" s).metric.sensorList = [] ∧
    (clearSelection "group" s).metric.channelList = [] ∧
    (clearSelection "group" s).metric.valueList = [] ∧
    (clearSelection "group" s).metric.propertyList = [] ∧
    (clearSelection "group" s).metric.filterPropertyList = [] ∧
    (clearSelection "group" s).target.deviceSelection = s.target.deviceSelection ∧
    (clearSelection "group" s).target.sensorSelection = s.target.sensorSelection ∧
    (clearSelection "group" s).target.channelSelection = s.target.channelSelection ∧
    (clearSelection "group" s).target.valueSelection = s.target.valueSelection := by
  refine ⟨?_, ?_, ?_, ?_, ?_, ?_, ?_, ?_, ?_, ?_, ?_⟩ <;>
    simp [clearSelection, targetChange_target, targetChange_metric]

/-- C10: the `channel` case of `clearSelection` falls through into the
`value` case, so it resets both `channelSelection` and `valueSelection` to
the empty name, while clearing any other level (`group`, `device`, `sensor`,
`value`, `property`) resets only that level's own target selector. -/
theorem claim_C10_channel_fallthrough (s : CtrlState) :
    ((clearSelection "channel" s).target.channelSelection = some ⟨""⟩ ∧
     (clearSelection "channel" s).target.valueSelection = some ⟨""⟩ ∧
     (clearSelection "channel" s).target.groupSelection = s.target.groupSelection ∧
     (clearSelection "channel" s).target.deviceSelection = s.target.deviceSelection ∧
     (clearSelection "channel" s).target.sensorSelection = s.target.sensorSelection ∧
     (clearSelection "channel" s).target.propertySelection = s.target.propertySelection) ∧
    ((clearSelection "group" s).target.groupSelection = some ⟨""⟩ ∧
     (clearSelection "group" s).target.deviceSelection = s.target.deviceSelection ∧
     (clearSelection "group" s).target.sensorSelection = s.target.sensorSelection ∧
     (clearSelection "group" s).target.channelSelection = s.target.channelSelection ∧
     (clearSelection "group" s).target.valueSelection = s.target.valueSelection ∧
     (clearSelection "group" s).target.propertySelection = s.target.propertySelection) ∧
    ((clearSelection "device" s).target.deviceSelection = some ⟨""⟩ ∧
     (clearSelection "device" s).target.groupSelection = s.target.groupSelection ∧
     (clearSelection "device" s).target.sensorSelection = s.target.sensorSelection ∧
     (clearSelection "device" s).target.channelSelection = s.target.channelSelection ∧
     (clearSelection "device" s).target.valueSelection = s.target.valueSelection ∧
     (clearSelection "device" s).target.propertySelection = s.target.propertySelection) ∧
    ((clearSelection "sensor" s).target.sensorSelection = some ⟨""⟩ ∧
     (clearSelection "sensor" s).target.groupSelection = s.target.groupSelection ∧
     (clearSelection "sensor" s).target.deviceSelection = s.target.deviceSelection ∧
     (clearSelection "sensor" s).target.channelSelection = s.target.channelSelection ∧
     (clearSelection "sensor" s).target.valueSelection = s.target.valueSelection ∧
     (clearSelection "sensor" s).target.propertySelection = s.target.propertySelection) ∧
    ((clearSelection "value" s).target.valueSelection = some ⟨""⟩ ∧
     (clearSelection "value" s).target.groupSelection = s.target.groupSelection ∧
     (clearSelection "value" s).target.deviceSelection = s.target.deviceSelection ∧
     (clearSelection "value" s).target.sensorSelection = s.target.sensorSelection ∧
     (clearSelection "value" s).target.channelSelection = s.target.channelSelection ∧
     (clearSelection "value" s).target.propertySelection = s.target.propertySelection) ∧
    ((clearSelection "property" s).target.propertySelection = some ⟨""⟩ ∧
     (clearSelection "property" s).target.groupSelection = s.target.groupSelection ∧
     (clearSelection "property" s).target.deviceSelection = s.target.deviceSelection ∧
     (clearSelection "property" s).target.sensorSelection = s.target.sensorSelection ∧
     (clearSelection "property" s).target.channelSelection = s.target.channelSelection ∧
     (clearSelection "property" s).target.valueSelection = s.target.valueSelection) := by
  refine ⟨⟨?_, ?_, ?_, ?_, ?_, ?_⟩, ⟨?_, ?_, ?_, ?_, ?_, ?_⟩, ⟨?_, ?_, ?_, ?_, ?_, ?_⟩,
    ⟨?_, ?_, ?_, ?_, ?_, ?_⟩, ⟨?_, ?_, ?_, ?_, ?_, ?_⟩, ⟨?_, ?_, ?_, ?_, ?_, ?_⟩⟩ <;>
    simp [clearSelection, targetChange_target, targetChange_metric]

/-- C9: the target built by `resetTarget` (all selections present with blank
names) fails validation with one error per required selection — group,
device, sensor, channel, value, property — so the validation status is
invalid. -/
theorem claim_C9_reset_then_validate (s : CtrlState) :
    validateTarget (resetTarget s).target =
      ["Group selection is required", "Device selection is required",
       "Sensor selection is required", "Channel selection is required",
       "Value selection is required", "Property selection is required"] ∧
    validateTarget (resetTarget s).target ≠ [] ∧
    (getValidationStatus (resetTarget s).target).isValid = false := by
  have ht : (resetTarget s).target =
      { refId := getNextRefId (jsOrStr (some s.target.refId) "A")
        queryType := "metrics"
        groupSelection := some ⟨""⟩
        deviceSelection := some ⟨""⟩
        sensorSelection := some ⟨""⟩
        channelSelection := some ⟨""⟩
        valueSelection := some ⟨""⟩
        propertySelection := some ⟨""⟩
        filterPropertySelection := some ⟨""⟩
        options := some
          { includeGroupName := false
            includeDeviceName := false
            includeSensorName := false } } := by
    simp [resetTarget, targetChange_target]
  refine ⟨?_, ?_, ?_⟩ <;> rw [ht]
  · rfl
  · intro hc
    exact List.cons_ne_nil _ _ hc
  · rfl

theorem avgForHours_of_band1 {h : ℚ} (h1 : 12 < h) (h2 : h < 36) :
    avgForHours h = "300" := by
  unfold avgForHours
  rw [if_pos ⟨h1, h2⟩]

theorem avgForHours_of_band2 {h : ℚ} (h1 : 36 < h) (h2 : h < 745) :
    avgForHours h = "3600" := by
  unfold avgForHours
  rw [if_neg (by rintro ⟨_, hc⟩; linarith), if_pos ⟨h1, h2⟩]

theorem avgForHours_of_band3 {h : ℚ} (h1 : 745 < h) :
    avgForHours h = "86400" := by
  unfold avgForHours
  rw [if_neg (by rintro ⟨_, hc⟩; linarith),
    if_neg (by rintro ⟨_, hc⟩; linarith), if_pos h1]

theorem avgForHours_other {h : ℚ} (h1 : ¬ (12 < h ∧ h < 36))
    (h2 : ¬ (36 < h ∧ h < 745)) (h3 : ¬ 745 < h) : avgForHours h = "0" := by
  unfold avgForHours
  rw [if_neg h1, if_neg h2, if_neg h3]

/-- C3: the averaging bucket is derived from the span in hours by fixed
strict-inequality breakpoints — a span strictly between 12 and 36 hours
yields `"300"`, strictly between 36 and 745 yields `"3600"`, above 745
yields `"86400"`, every other span yields `"0"` — and in particular a
20-hour span yields `"300"`, a 1000-hour span `"86400"`, a 5-hour span
`"0"`, and the boundary values 12, 36 and 745 themselves yield `"0"`. -/
theorem claim_C3_averaging (sdate edate : ℤ) :
    (12 < spanHours sdate edate ∧ spanHours sdate edate < 36 →
      avgForHours (spanHours sdate edate) = "300") ∧
    (36 < spanHours sdate edate ∧ spanHours sdate edate < 745 →
      avgForHours (spanHours sdate edate) = "3600") ∧
    (745 < spanHours sdate edate → avgForHours (spanHours sdate edate) = "86400") ∧
    (¬ (12 < spanHours sdate edate ∧ spanHours sdate edate < 36) →
      ¬ (36 < spanHours sdate edate ∧ spanHours sdate edate < 745) →
      ¬ 745 < spanHours sdate edate →
      avgForHours (spanHours sdate edate) = "0") ∧
    avgForHours (spanHours 0 72000000) = "300" ∧
    avgForHours (spanHours 0 3600000000) = "86400" ∧
    avgForHours (spanHours 0 18000000) = "0" ∧
    avgForHours 12 = "0" ∧ avgForHours 36 = "0" ∧ avgForHours 745 = "0" := by
  have h20 : spanHours 0 72000000 = 20 := by unfold spanHours; norm_num
  have h1000 : spanHours 0 3600000000 = 1000 := by unfold spanHours; norm_num
  have h5 : spanHours 0 18000000 = 5 := by unfold spanHours; norm_num
  refine ⟨fun hb => avgForHours_of_band1 hb.1 hb.2,
    fun hb => avgForHours_of_band2 hb.1 hb.2,
    fun hb => avgForHours_of_band3 hb,
    fun hb1 hb2 hb3 => avgForHours_other hb1 hb2 hb3, ?_, ?_, ?_, ?_, ?_, ?_⟩
  · rw [h20]; exact avgForHours_of_band1 (by norm_num) (by norm_num)
  · rw [h1000]; exact avgForHours_of_band3 (by norm_num)
  · rw [h5]; exact avgForHours_other (by norm_num) (by norm_num) (by norm_num)
  · exact avgForHours_other (by norm_num) (by norm_num) (by norm_num)
  · exact avgForHours_other (by norm_num) (by norm_num) (by norm_num)
  · exact avgForHours_other (by norm_num) (by norm_num) (by norm_num)

/-- C3 witness: the breakpoint theorem applied at a concrete 20-hour span
(72000000 ms), discharging the band hypothesis there. -/
theorem claim_C3_witness : avgForHours (spanHours 0 72000000) = "300" := by
  refine (claim_C3_averaging 0 72000000).1 ⟨?_, ?_⟩ <;>
    · unfold spanHours; norm_num

/-- C7: each suggest query (group/device/sensor/channel) returns its rows
sorted ascending by its primary name column through a stable sort — the
output is a permutation of the input, pairwise ascending by the key, and
equal-key rows keep their relative order — and fails with
`<Type> query failed: <cause>` both when the request fails and when the
response carries no matching collection field. -/
theorem claim_C7_suggest_queries :
    (∀ rows : List SRow,
      performGroupSuggestQuery (.ok (some rows)) = .ok (sortItems (fun g => g.group) rows) ∧
      (sortItems (fun g => g.group) rows).Pairwise (fun a b => strLe a.group b.group = true) ∧
      (sortItems (fun g => g.group) rows).Perm rows ∧
      ∀ k, (sortItems (fun g => g.group) rows).filter (fun a => a.group = k)
        = rows.filter (fun a => a.group = k)) ∧
    (∀ e, performGroupSuggestQuery (.error e) = .error ("Group query failed: " ++ e)) ∧
    performGroupSuggestQuery (.ok none)
      = .error ("Group query failed: " ++ "No group data received from PRTG") ∧
    (∀ rows : List SRow,
      performDeviceSuggestQuery (.ok (some rows)) = .ok (sortItems (fun d => d.device) rows) ∧
      (sortItems (fun d => d.device) rows).Pairwise (fun a b => strLe a.device b.device = true) ∧
      (sortItems (fun d => d.device) rows).Perm rows ∧
      ∀ k, (sortItems (fun d => d.device) rows).filter (fun a => a.device = k)
        = rows.filter (fun a => a.device = k)) ∧
    (∀ e, performDeviceSuggestQuery (.error e) = .error ("Device query failed: " ++ e)) ∧
    performDeviceSuggestQuery (.ok none)
      = .error ("Device query failed: " ++ "No device data received from PRTG") ∧
    (∀ rows : List SRow,
      performSensorSuggestQuery (.ok (some rows)) = .ok (sortItems (fun s => s.sensor) rows) ∧
      (sortItems (fun s => s.sensor) rows).Pairwise (fun a b => strLe a.sensor b.sensor = true) ∧
      (sortItems (fun s => s.sensor) rows).Perm rows ∧
      ∀ k, (sortItems (fun s => s.sensor) rows).filter (fun a => a.sensor = k)
        = rows.filter (fun a => a.sensor = k)) ∧
    (∀ e, performSensorSuggestQuery (.error e) = .error ("Sensor query failed: " ++ e)) ∧
    performSensorSuggestQuery (.ok none)
      = .error ("Sensor query failed: " ++ "No sensor data received from PRTG") ∧
    (∀ rows : List SRow,
      performChannelSuggestQuery (.ok (some rows)) = .ok (sortItems (fun s => s.sensor) rows) ∧
      (sortItems (fun s => s.sensor) rows).Pairwise (fun a b => strLe a.sensor b.sensor = true) ∧
      (sortItems (fun s => s.sensor) rows).Perm rows ∧
      ∀ k, (sortItems (fun s => s.sensor) rows).filter (fun a => a.sensor = k)
        = rows.filter (fun a => a.sensor = k)) ∧
    (∀ e, performChannelSuggestQuery (.error e) = .error ("Channel query failed: " ++ e)) ∧
    performChannelSuggestQuery (.ok none)
      = .error ("Channel query failed: " ++ "No sensor data received from PRTG") := by
  refine ⟨fun rows => ⟨rfl, sortItems_sorted _ _, sortItems_perm _ _,
      fun k => sortItems_stable _ _ k⟩, fun e => rfl, rfl,
    fun rows => ⟨rfl, sortItems_sorted _ _, sortItems_perm _ _,
      fun k => sortItems_stable _ _ k⟩, fun e => rfl, rfl,
    fun rows => ⟨rfl, sortItems_sorted _ _, sortItems_perm _ _,
      fun k => sortItems_stable _ _ k⟩, fun e => rfl, rfl,
    fun rows => ⟨rfl, sortItems_sorted _ _, sortItems_perm _ _,
      fun k => sortItems_stable _ _ k⟩, fun e => rfl, rfl⟩

/-- C4: `processResponse` returns the object itself when it carries a (truthy)
`Version` field; otherwise, when it carries the `prtg-version` marker, its
`groups` field when that is present (and truthy), else the whole object; and
otherwise the first present (truthy) field in the fixed priority order
`groups, devices, sensors, channels, values, sensordata, messages`. -/
theorem claim_C4_processResponse (d : Json) :
    (d.truthy = true → d.fieldTruthy "Version" = true → processResponse d = .ok d) ∧
    (d.fieldTruthy "Version" = false → d.fieldTruthy "prtg-version" = true →
      ∀ g, d.getField "groups" = some g → g.truthy = true → processResponse d = .ok g) ∧
    (d.fieldTruthy "Version" = false → d.fieldTruthy "prtg-version" = true →
      d.fieldTruthy "groups" = false → processResponse d = .ok d) ∧
    (d.fieldTruthy "Version" = false → d.fieldTruthy "prtg-version" = false →
      ∀ v, firstTruthyField d responseTypes = some v → processResponse d = .ok v) := by
  refine ⟨?_, ?_, ?_, ?_⟩
  · intro h1 h2
    unfold processResponse
    rw [if_pos ⟨h1, h2⟩]
  · intro h1 h2 g hg hgt
    unfold processResponse
    rw [if_neg (by rintro ⟨_, hv⟩; rw [h1] at hv; cases hv), if_pos h2, hg]
    simp [hgt]
  · intro h1 h2 h3
    unfold processResponse
    rw [if_neg (by rintro ⟨_, hv⟩; rw [h1] at hv; cases hv), if_pos h2]
    cases hg : d.getField "groups" with
    | none => rfl
    | some g =>
      have : g.truthy = false := by
        have := h3
        unfold Json.fieldTruthy at this
        rw [hg] at this
        exact this
      simp [this]
  · intro h1 h2 v hv
    unfold processResponse
    rw [if_neg (by rintro ⟨_, hx⟩; rw [h1] at hx; cases hx),
      if_neg (by intro hx; rw [h2] at hx; cases hx), hv]

/-- C4 witness: the two spec scenarios through the theorem — an object with
only a `sensors` field yields that field's value, and one carrying the
version marker and a `groups` field yields the `groups` value. -/
theorem claim_C4_witness :
    processResponse (Json.obj [("sensors", Json.arr [Json.num 1])])
      = .ok (Json.arr [Json.num 1]) ∧
    processResponse (Json.obj [("prtg-version", Json.str "1.2"), ("groups", Json.arr [])])
      = .ok (Json.arr []) := by
  constructor
  · exact (claim_C4_processResponse
      (Json.obj [("sensors", Json.arr [Json.num 1])])).2.2.2 rfl rfl
      (Json.arr [Json.num 1]) rfl
  · exact (claim_C4_processResponse
      (Json.obj [("prtg-version", Json.str "1.2"), ("groups", Json.arr [])])).2.1 rfl rfl
      (Json.arr []) rfl rfl

/-- C2 counterexample: in an environment where every request succeeds and
the historical data has an available `Value` column, a metrics target whose
`valueSelection` name is the empty string produces no frame at all (the
resolver returns `null` before issuing any fetch) — not, as claimed, a frame
with one value field per available column.  The same target with `Value`
selected does produce the expected two-field frame, so the environment
supports resolution. -/
theorem claim_C2_counterexample :
    processTarget exEnvOk 0 72000000 exTargetEmptyVal = .ok none ∧
    frameFieldNames (processTarget exEnvOk 0 72000000 exTargetWithVal)
      = some ["Time", "Value"] := by
  exact ⟨rfl, rfl⟩

/-- C2 amended: for a metrics-path target (query type neither `text` nor
`raw`): an empty or absent value selection yields no frame at all; otherwise,
when the sensor resolves with a nonzero object id and the historical query
returns data, the emitted frame has one time field named `Time` first
followed by exactly one `number` field per selected metric column, where the
selected columns are the trimmed comma-split entries of the value selection
that match an available (non-`datetime`) column of the first data point — or
every available column when none matches (last two conjuncts). -/
theorem claim_C2_metrics_fields (env : Env) (ft tt : ℤ) (t : Target)
    (hq1 : t.queryType ≠ "text") (hq2 : t.queryType ≠ "raw") :
    (optStrTruthy (selName t.valueSelection) = false →
      processTarget env ft tt t = .ok none) ∧
    (∀ vname sname info first rest,
      selName t.valueSelection = some vname → vname ≠ "" →
      selName t.sensorSelection = some sname → sname ≠ "" →
      getSensorInfo env.sensorSuggest sname = .ok info →
      info.objid ≠ 0 →
      performQuerySuggestQueryFull env ft tt [⟨.jnum info.objid, selName t.channelSelection⟩]
        = .ok (first, rest) →
      frameFieldNames (processTarget env ft tt t)
        = some ("Time" :: metricsSelectedValues vname (metricsAvailable first)) ∧
      frameFieldTypes (processTarget env ft tt t)
        = some (FieldType.time ::
            (metricsSelectedValues vname (metricsAvailable first)).map
              (fun _ => FieldType.number))) ∧
    (∀ vname avail,
      ((jsSplit ',' vname).map jsTrim).filter (fun v => avail.contains v) = [] →
        metricsSelectedValues vname avail = avail) ∧
    (∀ vname avail,
      ((jsSplit ',' vname).map jsTrim).filter (fun v => avail.contains v) ≠ [] →
        metricsSelectedValues vname avail
          = ((jsSplit ',' vname).map jsTrim).filter (fun v => avail.contains v)) := by
  refine ⟨?_, ?_, ?_, ?_⟩
  · intro h
    simp only [processTarget, if_neg hq1, if_neg hq2]
    unfold processMetricsTarget
    rw [h]
    rfl
  · intro vname sname info first rest hv hvne hs hsne hinfo hobj hfull
    simp only [processTarget, if_neg hq1, if_neg hq2]
    unfold processMetricsTarget
    rw [hv, hs]
    have hvt : optStrTruthy (some vname) = true := by
      simp [optStrTruthy, hvne]
    have hst : optStrTruthy (some sname) = true := by
      simp [optStrTruthy, hsne]
    rw [hvt, hst]
    simp only [Bool.not_true, Bool.false_eq_true, if_false, Option.getD_some]
    rw [hinfo]
    simp only [if_neg hobj]
    rw [hfull]
    simp only [frameFieldNames, frameFieldTypes, List.map_cons, List.map_map]
    constructor <;> simp [Function.comp_def, List.map_const]
  · intro vname avail h
    unfold metricsSelectedValues
    rw [h]
    rfl
  · intro vname avail h
    unfold metricsSelectedValues
    rw [if_neg (by simpa [List.isEmpty_iff] using h)]

/-- C2 witness: the amended theorem applied to the concrete scenario,
discharging every hypothesis there. -/
theorem claim_C2_metrics_fields_witness :
    frameFieldNames (processTarget exEnvOk 0 72000000 exTargetWithVal)
      = some ("Time" :: metricsSelectedValues "Value" (metricsAvailable exHistRow)) ∧
    processTarget exEnvOk 0 72000000 exTargetEmptyVal = .ok none := by
  constructor
  · exact ((claim_C2_metrics_fields exEnvOk 0 72000000 exTargetWithVal (by decide)
      (by decide)).2.1 "Value" "S" exSensorRow exHistRow [] rfl (by decide) rfl
      (by decide) rfl (by decide) rfl).1
  · exact (claim_C2_metrics_fields exEnvOk 0 72000000 exTargetEmptyVal (by decide)
      (by decide)).1 rfl

/-- C5 counterexample: with the group table request failing, the rejection
of a `text`-mode target makes the whole batch return
`{data: [], state: Error}` even though the sibling metrics target resolves
to a frame on its own — so one target's error does abort the others,
contradicting the claimed isolation. -/
theorem claim_C5_counterexample :
    dsQuery exEnvGroupDown 0 72000000 [exTextTarget, exTargetWithVal]
      = { data := [], state := .error } ∧
    outcomeProducedFrame (processTarget exEnvGroupDown 0 72000000 exTargetWithVal)
      = true ∧
    outcomeResolved (processTarget exEnvGroupDown 0 72000000 exTextTarget) = false := by
  exact ⟨rfl, rfl, rfl⟩

/-- C5 amended: an empty target list yields `{data: [], state: Error}`;
targets on the metrics path (query type neither `text` nor `raw`) always
resolve, so their failures are isolated; but when any target rejects (which
`text`/`raw` targets do on an info-fetch failure) the whole batch collapses
to `{data: [], state: Error}`, discarding sibling frames; and when no target
rejects, the result keeps the produced frames with state `Done` exactly when
at least one target produced a frame. -/
theorem claim_C5_failure_isolation (env : Env) (ft tt : ℤ) (targets : List Target) :
    dsQuery env ft tt [] = { data := [], state := .error } ∧
    (∀ t, t.queryType ≠ "text" → t.queryType ≠ "raw" →
      outcomeResolved (processTarget env ft tt t) = true) ∧
    ((targets.map (processTarget env ft tt)).any outcomeIsRejected = true →
      dsQuery env ft tt targets = { data := [], state := .error }) ∧
    ((targets.map (processTarget env ft tt)).any outcomeIsRejected = false →
      dsQuery env ft tt targets =
        { data := collectFrames (targets.map (processTarget env ft tt))
          state :=
            if 0 < (collectFrames (targets.map (processTarget env ft tt))).length
            then .done else .error }) ∧
    ((targets.map (processTarget env ft tt)).any outcomeIsRejected = false →
      ((dsQuery env ft tt targets).state = .done ↔
        (dsQuery env ft tt targets).data ≠ [])) := by
  refine ⟨rfl, ?_, ?_, ?_, ?_⟩
  · intro t h1 h2
    simp only [processTarget, if_neg h1, if_neg h2]
    rfl
  · intro h
    unfold dsQuery
    rw [if_pos h]
  · intro h
    unfold dsQuery
    rw [if_neg (by rw [h]; exact Bool.false_ne_true)]
  · intro h
    unfold dsQuery
    rw [if_neg (by rw [h]; exact Bool.false_ne_true)]
    cases hc : collectFrames (targets.map (processTarget env ft tt)) with
    | nil => simp
    | cons f fs => simp

/-- C5 witness: the amended theorem applied at concrete inputs — the
metrics target resolves even in the degraded environment, and the batch
containing the rejecting text target collapses to the error response. -/
theorem claim_C5_failure_isolation_witness :
    outcomeResolved (processTarget exEnvGroupDown 0 72000000 exTargetWithVal) = true ∧
    dsQuery exEnvGroupDown 0 72000000 [exTextTarget] = { data := [], state := .error } := by
  constructor
  · exact (claim_C5_failure_isolation exEnvGroupDown 0 72000000 []).2.1
      exTargetWithVal (by decide) (by decide)
  · exact (claim_C5_failure_isolation exEnvGroupDown 0 72000000 [exTextTarget]).2.2.1 rfl

end PRTG
